import Mathlib

/-!
Shallow embedding of `src/solar_panel_simulator/main.py`: a lumped-parameter
fixed-timestep thermal simulator of a solar water-heating loop.  Python floats
are modelled as real numbers; the Python globals read by the update methods
(`solar_rad`, `time`, `cycle`, `T_amb`, `sigma`, `dt`) are threaded as explicit
parameters; the mutation of `self` is modelled by returning the updated record
together with the method's return value.
-/

namespace SolarSim

open Real

/-- `Kelvin(T) = T + 273` (main.py line 33). -/
noncomputable def Kelvin (T : ℝ) : ℝ := T + 273

/-- `get_solar_rad(solar_rad, time, cycle)` (main.py lines 36-47):
diurnal sinusoid when `cycle`, constant flux otherwise. -/
noncomputable def get_solar_rad (solar_rad time : ℝ) (cycle : Bool) : ℝ :=
  if cycle then
    let a := Real.sin ((2 * Real.pi * time) / 86400)
    if a > 0 then solar_rad * a else 0
  else
    solar_rad

/-- The fields of the `SolarPanel` class (main.py lines 55-79). -/
structure SolarPanel where
  T : ℝ
  effi : ℝ
  pipe_len : ℝ
  pipe_dia : ℝ
  pipe_area : ℝ
  panel_area : ℝ
  panel_thickness : ℝ
  C : ℝ
  emmi : ℝ

/-- `SolarPanel.__init__` (main.py lines 57-79): stores the parameters and
derives `pipe_area = π·d²/4`. -/
noncomputable def SolarPanel.init (T effi emmi pipe_len pipe_dia panel_area panel_thickness C : ℝ) :
    SolarPanel :=
  { T := T
    effi := effi
    pipe_len := pipe_len
    pipe_dia := pipe_dia
    pipe_area := (Real.pi * pipe_dia ^ 2) / 4
    panel_area := panel_area
    panel_thickness := panel_thickness
    C := C
    emmi := emmi }

/-- `SolarPanel.UpdateTemp` (main.py lines 81-102).  The Python method reads
the globals `solar_rad`, `time`, `cycle`, `sigma`, `T_amb`, `dt`, mutates
`self.T` and returns it; here the globals are parameters and the result is
the updated panel paired with the returned temperature. -/
noncomputable def SolarPanel.UpdateTemp (p : SolarPanel) (solar_rad time : ℝ) (cycle : Bool)
    (T_amb sigma dt : ℝ) : SolarPanel × ℝ :=
  let radiation_in := get_solar_rad solar_rad time cycle * p.effi * p.panel_area
  let radiation_loss :=
    sigma * p.panel_area * p.emmi * ((Kelvin p.T) ^ 4 - (Kelvin T_amb) ^ 4) * dt
  let convection_loss := 0.2 * radiation_loss
  let panel_available_heat := radiation_in - (radiation_loss + convection_loss)
  let panel_mass := p.panel_thickness * p.panel_area * 7800
  let T_new := p.T + panel_available_heat / (p.C * panel_mass)
  ({ p with T := T_new }, T_new)

/-- The fields of the `Fluid` class (main.py lines 110-132). -/
structure Fluid where
  rho : ℝ
  velocity : ℝ
  C : ℝ
  ht_coeff : ℝ
  T_panel_out : ℝ
  T_tank_out : ℝ
  alpha : ℝ
  len : ℝ
  pipe_area : ℝ
  tank_volume : ℝ

/-- `Fluid.__init__` (main.py lines 111-132).  The line
`self.alpha = (4*ht_coeff)/(C*rho*velocity*solarpanel.pipe_dia)` raises
`ZeroDivisionError` in Python when the denominator is zero, so the
construction is fallible: `none` models that exception. -/
noncomputable def Fluid.init (solarpanel : SolarPanel)
    (tank_volume T_panel_out T_tank_out C rho velocity ht_coeff : ℝ) : Option Fluid :=
  if C * rho * velocity * solarpanel.pipe_dia = 0 then none
  else some
    { rho := rho
      velocity := velocity
      C := C
      ht_coeff := ht_coeff
      T_panel_out := T_panel_out
      T_tank_out := T_tank_out
      alpha := (4 * ht_coeff) / (C * rho * velocity * solarpanel.pipe_dia)
      len := solarpanel.pipe_len
      pipe_area := solarpanel.pipe_area
      tank_volume := tank_volume }

/-- `Fluid.UpdateTemp` (main.py lines 134-153): exponential approach of the
panel-outlet temperature to the pipe temperature, then perfect mixing into
the tank.  The global `dt` is a parameter; the result is the updated fluid
paired with the returned pair `(T_panel_out, T_tank_out)`. -/
noncomputable def Fluid.UpdateTemp (f : Fluid) (pipe_temp_updated dt : ℝ) : Fluid × (ℝ × ℝ) :=
  let T_panel_out :=
    pipe_temp_updated + (f.T_tank_out - pipe_temp_updated) * Real.exp (-f.alpha * f.len)
  let m := f.rho * f.pipe_area * f.velocity * dt
  let M := f.tank_volume * f.rho
  let T_tank_out := (m * T_panel_out + M * f.T_tank_out) / (m + M)
  ({ f with T_panel_out := T_panel_out, T_tank_out := T_tank_out }, (T_panel_out, T_tank_out))

/-- The driver's mutable state (main.py lines 176-197): the panel, the fluid
and the three append-only time series. -/
structure SimState where
  panel : SolarPanel
  water : Fluid
  pipe_temps : List ℝ
  panel_outlet_temps : List ℝ
  tank_outlet_temps : List ℝ

/-- The state the `__main__` driver starts the loop with: freshly constructed
panel and fluid, three empty series (main.py lines 176-182). -/
def SimState.start (panel : SolarPanel) (water : Fluid) : SimState :=
  { panel := panel
    water := water
    pipe_temps := []
    panel_outlet_temps := []
    tank_outlet_temps := [] }

/-- One iteration of the `__main__` loop at index `i` (main.py lines 184-197):
`time = dt*i`, panel update, fluid update fed with the panel's result, and
one append to each of the three series. -/
noncomputable def simStep (solar_rad : ℝ) (cycle : Bool) (T_amb sigma dt : ℝ)
    (i : ℕ) (s : SimState) : SimState :=
  let time := dt * i
  let panelRes := s.panel.UpdateTemp solar_rad time cycle T_amb sigma dt
  let fluidRes := s.water.UpdateTemp panelRes.2 dt
  { panel := panelRes.1
    water := fluidRes.1
    pipe_temps := s.pipe_temps ++ [panelRes.2]
    panel_outlet_temps := s.panel_outlet_temps ++ [fluidRes.2.1]
    tank_outlet_temps := s.tank_outlet_temps ++ [fluidRes.2.2] }

/-- The whole `for i in range(steps)` loop (main.py lines 184-197). -/
noncomputable def simRun (solar_rad : ℝ) (cycle : Bool) (T_amb sigma dt : ℝ)
    (steps : ℕ) (s : SimState) : SimState :=
  (List.range steps).foldl (fun acc i => simStep solar_rad cycle T_amb sigma dt i acc) s

theorem simRun_zero (solar_rad : ℝ) (cycle : Bool) (T_amb sigma dt : ℝ) (s : SimState) :
    simRun solar_rad cycle T_amb sigma dt 0 s = s := rfl

theorem simRun_succ (solar_rad : ℝ) (cycle : Bool) (T_amb sigma dt : ℝ)
    (n : ℕ) (s : SimState) :
    simRun solar_rad cycle T_amb sigma dt (n + 1) s =
      simStep solar_rad cycle T_amb sigma dt n (simRun solar_rad cycle T_amb sigma dt n s) := by
  unfold simRun
  rw [List.range_succ, List.foldl_append, List.foldl_cons, List.foldl_nil]

/-- C1: `SolarPanel.UpdateTemp` returns, and stores as the new panel
temperature, `T_old + (flux·effi·area − 1.2·sigma·area·emmi·((T_old+273)^4 −
(T_amb+273)^4)·dt) / (C·thickness·area·7800)`: the radiation-gain term is not
multiplied by `dt`, the loss term is, convection loss is 0.2 times radiation
loss (hence the factor 1.2), and Kelvin conversion adds exactly 273. -/
theorem UpdateTemp_closed_form (p : SolarPanel) (solar_rad time : ℝ) (cycle : Bool)
    (T_amb sigma dt : ℝ) :
    (p.UpdateTemp solar_rad time cycle T_amb sigma dt).2 =
        p.T + (get_solar_rad solar_rad time cycle * p.effi * p.panel_area
            - 1.2 * sigma * p.panel_area * p.emmi * ((p.T + 273) ^ 4 - (T_amb + 273) ^ 4) * dt)
          / (p.C * p.panel_thickness * p.panel_area * 7800) ∧
      (p.UpdateTemp solar_rad time cycle T_amb sigma dt).1.T =
        (p.UpdateTemp solar_rad time cycle T_amb sigma dt).2 := by
  refine ⟨?_, rfl⟩
  unfold SolarPanel.UpdateTemp Kelvin
  ring_nf

/-- C2: `Fluid.UpdateTemp` sets the panel-outlet temperature to
`T_pipe + (T_tank_out_old − T_pipe)·exp(−alpha·len)`, then the tank-outlet
temperature to the mass-weighted average `(m·T_panel_out_new +
M·T_tank_out_old)/(m+M)` with `m = rho·pipe_area·velocity·dt` and
`M = tank_volume·rho`, and returns the pair. -/
theorem Fluid_UpdateTemp_closed_form (f : Fluid) (pipe_temp_updated dt : ℝ) :
    f.UpdateTemp pipe_temp_updated dt =
      ({ f with
          T_panel_out := pipe_temp_updated +
            (f.T_tank_out - pipe_temp_updated) * Real.exp (-f.alpha * f.len)
          T_tank_out :=
            (f.rho * f.pipe_area * f.velocity * dt *
                (pipe_temp_updated +
                  (f.T_tank_out - pipe_temp_updated) * Real.exp (-f.alpha * f.len)) +
              f.tank_volume * f.rho * f.T_tank_out) /
            (f.rho * f.pipe_area * f.velocity * dt + f.tank_volume * f.rho) },
        (pipe_temp_updated +
            (f.T_tank_out - pipe_temp_updated) * Real.exp (-f.alpha * f.len),
          (f.rho * f.pipe_area * f.velocity * dt *
              (pipe_temp_updated +
                (f.T_tank_out - pipe_temp_updated) * Real.exp (-f.alpha * f.len)) +
            f.tank_volume * f.rho * f.T_tank_out) /
          (f.rho * f.pipe_area * f.velocity * dt + f.tank_volume * f.rho))) := rfl

/-- C3: with `cycle = True`, `get_solar_rad` is 0 exactly at `t = 0`,
`t = 43200` and `t = 86400`, equals the peak at `t = 21600`; with
`cycle = False` it is the peak for every `t`. -/
theorem get_solar_rad_boundary (peak : ℝ) :
    get_solar_rad peak 0 true = 0 ∧
      get_solar_rad peak 43200 true = 0 ∧
      get_solar_rad peak 86400 true = 0 ∧
      get_solar_rad peak 21600 true = peak ∧
      ∀ t : ℝ, get_solar_rad peak t false = peak := by
  refine ⟨?_, ?_, ?_, ?_, fun t => rfl⟩
  · have h : (2 * Real.pi * 0) / 86400 = 0 := by ring
    simp [get_solar_rad, h]
  · have h : (2 * Real.pi * 43200) / 86400 = Real.pi := by ring
    simp [get_solar_rad, h]
  · have h : (2 * Real.pi * 86400) / 86400 = 2 * Real.pi := by ring
    simp [get_solar_rad, h, Real.sin_two_pi]
  · have h : (2 * Real.pi * 21600) / 86400 = Real.pi / 2 := by ring
    simp [get_solar_rad, h]

/-- Closed form of the temperature stored by `SolarPanel.UpdateTemp` (shared
helper, directly from main.py lines 91-100). -/
theorem UpdateTemp_T_eq (p : SolarPanel) (solar_rad time : ℝ) (cycle : Bool)
    (T_amb sigma dt : ℝ) :
    (p.UpdateTemp solar_rad time cycle T_amb sigma dt).1.T =
      p.T + (get_solar_rad solar_rad time cycle * p.effi * p.panel_area
          - 1.2 * (sigma * p.panel_area * p.emmi * ((p.T + 273) ^ 4 - (T_amb + 273) ^ 4) * dt))
        / (p.C * (p.panel_thickness * p.panel_area * 7800)) := by
  show p.T + (get_solar_rad solar_rad time cycle * p.effi * p.panel_area
      - (sigma * p.panel_area * p.emmi * ((Kelvin p.T) ^ 4 - (Kelvin T_amb) ^ 4) * dt
        + 0.2 * (sigma * p.panel_area * p.emmi * ((Kelvin p.T) ^ 4 - (Kelvin T_amb) ^ 4) * dt)))
      / (p.C * (p.panel_thickness * p.panel_area * 7800)) = _
  unfold Kelvin
  ring_nf

/-- The convex-combination bound for a mass-weighted average (shared helper). -/
theorem weighted_avg_bounds (m M a b : ℝ) (hm : 0 ≤ m) (hM : 0 ≤ M) (h : 0 < m + M) :
    min b a ≤ (m * a + M * b) / (m + M) ∧ (m * a + M * b) / (m + M) ≤ max b a := by
  constructor
  · rw [le_div_iff₀ h]
    nlinarith [min_le_left b a, min_le_right b a,
      mul_le_mul_of_nonneg_left (min_le_right b a) hm,
      mul_le_mul_of_nonneg_left (min_le_left b a) hM]
  · rw [div_le_iff₀ h]
    nlinarith [le_max_left b a, le_max_right b a,
      mul_le_mul_of_nonneg_left (le_max_right b a) hm,
      mul_le_mul_of_nonneg_left (le_max_left b a) hM]

/-- C4: the tank-mixing step of `Fluid.UpdateTemp` is a convex combination:
with both masses nonnegative and their sum positive, the new tank-outlet
temperature lies between the old tank-outlet temperature and the new
panel-outlet temperature, inclusive. -/
theorem tank_mixing_convex (f : Fluid) (pipe_temp_updated dt : ℝ)
    (hm : 0 ≤ f.rho * f.pipe_area * f.velocity * dt)
    (hM : 0 ≤ f.tank_volume * f.rho)
    (hpos : 0 < f.rho * f.pipe_area * f.velocity * dt + f.tank_volume * f.rho) :
    min f.T_tank_out (f.UpdateTemp pipe_temp_updated dt).2.1 ≤
        (f.UpdateTemp pipe_temp_updated dt).2.2 ∧
      (f.UpdateTemp pipe_temp_updated dt).2.2 ≤
        max f.T_tank_out (f.UpdateTemp pipe_temp_updated dt).2.1 :=
  weighted_avg_bounds (f.rho * f.pipe_area * f.velocity * dt) (f.tank_volume * f.rho)
    (pipe_temp_updated + (f.T_tank_out - pipe_temp_updated) * Real.exp (-f.alpha * f.len))
    f.T_tank_out hm hM hpos

/-- A fluid state with the reference configuration's parameters, used to
instantiate the conditional theorems at a concrete input. -/
noncomputable def witFluid : Fluid :=
  { rho := 1000
    velocity := 0.05
    C := 4180
    ht_coeff := 300
    T_panel_out := 25
    T_tank_out := 25
    alpha := 1
    len := 5
    pipe_area := 1
    tank_volume := 2 }

theorem tank_mixing_convex_witness :
    min witFluid.T_tank_out (witFluid.UpdateTemp 30 1).2.1 ≤ (witFluid.UpdateTemp 30 1).2.2 ∧
      (witFluid.UpdateTemp 30 1).2.2 ≤
        max witFluid.T_tank_out (witFluid.UpdateTemp 30 1).2.1 :=
  tank_mixing_convex witFluid 30 1 (by norm_num [witFluid]) (by norm_num [witFluid])
    (by norm_num [witFluid])

/-- C10: with `alpha·len ≥ 0` the exponential-approach step of
`Fluid.UpdateTemp` is itself a convex combination: the new panel-outlet
temperature lies between the updated pipe temperature and the previous
tank-outlet temperature, inclusive. -/
theorem panel_outlet_convex (f : Fluid) (pipe_temp_updated dt : ℝ)
    (h : 0 ≤ f.alpha * f.len) :
    min pipe_temp_updated f.T_tank_out ≤ (f.UpdateTemp pipe_temp_updated dt).2.1 ∧
      (f.UpdateTemp pipe_temp_updated dt).2.1 ≤ max pipe_temp_updated f.T_tank_out := by
  have he1 : Real.exp (-f.alpha * f.len) ≤ 1 := by
    rw [Real.exp_le_one_iff]
    nlinarith
  have he0 : 0 < Real.exp (-f.alpha * f.len) := Real.exp_pos _
  show min pipe_temp_updated f.T_tank_out ≤
      pipe_temp_updated + (f.T_tank_out - pipe_temp_updated) * Real.exp (-f.alpha * f.len) ∧
    pipe_temp_updated + (f.T_tank_out - pipe_temp_updated) * Real.exp (-f.alpha * f.len) ≤
      max pipe_temp_updated f.T_tank_out
  constructor
  · rcases le_total pipe_temp_updated f.T_tank_out with hab | hab
    · rw [min_eq_left hab]
      nlinarith [mul_nonneg (sub_nonneg.2 hab) he0.le]
    · rw [min_eq_right hab]
      nlinarith [mul_nonneg (sub_nonneg.2 hab) (sub_nonneg.2 he1)]
  · rcases le_total pipe_temp_updated f.T_tank_out with hab | hab
    · rw [max_eq_right hab]
      nlinarith [mul_nonneg (sub_nonneg.2 hab) (sub_nonneg.2 he1)]
    · rw [max_eq_left hab]
      nlinarith [mul_nonneg (sub_nonneg.2 hab) he0.le]

theorem panel_outlet_convex_witness :
    min (30 : ℝ) witFluid.T_tank_out ≤ (witFluid.UpdateTemp 30 1).2.1 ∧
      (witFluid.UpdateTemp 30 1).2.1 ≤ max (30 : ℝ) witFluid.T_tank_out :=
  panel_outlet_convex witFluid 30 1 (by norm_num [witFluid])

/-- C9: `Fluid.__init__` divides by `C·rho·velocity·pipe_dia` when computing
`alpha`; the construction fails (division by zero) whenever any of those four
factors is zero, and under the precondition that their product is nonzero it
succeeds with `alpha = 4·ht_coeff / (C·rho·velocity·pipe_dia)`. -/
theorem Fluid_init_alpha (sp : SolarPanel)
    (tank_volume T_panel_out T_tank_out C rho velocity ht_coeff : ℝ) :
    ((C = 0 ∨ rho = 0 ∨ velocity = 0 ∨ sp.pipe_dia = 0) →
        Fluid.init sp tank_volume T_panel_out T_tank_out C rho velocity ht_coeff = none) ∧
      (C * rho * velocity * sp.pipe_dia ≠ 0 →
        Fluid.init sp tank_volume T_panel_out T_tank_out C rho velocity ht_coeff =
          some
            { rho := rho
              velocity := velocity
              C := C
              ht_coeff := ht_coeff
              T_panel_out := T_panel_out
              T_tank_out := T_tank_out
              alpha := (4 * ht_coeff) / (C * rho * velocity * sp.pipe_dia)
              len := sp.pipe_len
              pipe_area := sp.pipe_area
              tank_volume := tank_volume }) := by
  constructor
  · intro h
    have hz : C * rho * velocity * sp.pipe_dia = 0 := by
      rcases h with h | h | h | h <;> rw [h] <;> ring
    unfold Fluid.init
    rw [if_pos hz]
  · intro h
    unfold Fluid.init
    rw [if_neg h]

theorem Fluid_init_alpha_witness :
    Fluid.init (SolarPanel.init 25 0.5 0.4 5 0.025 1 0.06 500) 2 25 25 4180 1000 0 300 =
      none :=
  (Fluid_init_alpha (SolarPanel.init 25 0.5 0.4 5 0.025 1 0.06 500)
    2 25 25 4180 1000 0 300).1 (Or.inr (Or.inr (Or.inl rfl)))

/-- C6: with zero emissivity and the diurnal cycle off, one panel update with
nonnegative peak flux, efficiency in `[0,1]` and positive area, thickness and
heat capacity never decreases the panel temperature. -/
theorem panel_temp_nondecreasing (p : SolarPanel) (solar_rad time T_amb sigma dt : ℝ)
    (hemmi : p.emmi = 0) (hrad : 0 ≤ solar_rad) (heffi0 : 0 ≤ p.effi) (_heffi1 : p.effi ≤ 1)
    (harea : 0 < p.panel_area) (hth : 0 < p.panel_thickness) (hC : 0 < p.C) :
    p.T ≤ (p.UpdateTemp solar_rad time false T_amb sigma dt).1.T := by
  rw [UpdateTemp_T_eq]
  have hg : get_solar_rad solar_rad time false = solar_rad := rfl
  rw [hg, hemmi]
  have hnum : 0 ≤ solar_rad * p.effi * p.panel_area
      - 1.2 * (sigma * p.panel_area * 0 * ((p.T + 273) ^ 4 - (T_amb + 273) ^ 4) * dt) := by
    have : 0 ≤ solar_rad * p.effi * p.panel_area :=
      mul_nonneg (mul_nonneg hrad heffi0) harea.le
    nlinarith
  have hden : 0 < p.C * (p.panel_thickness * p.panel_area * 7800) := by
    have h7800 : (0:ℝ) < 7800 := by norm_num
    exact mul_pos hC (mul_pos (mul_pos hth harea) h7800)
  exact le_add_of_nonneg_right (div_nonneg hnum hden.le)

/-- A panel state with the reference configuration's parameters and zero
emissivity, used to instantiate the zero-loss theorem concretely. -/
noncomputable def witPanel : SolarPanel :=
  { T := 25
    effi := 0.5
    pipe_len := 5
    pipe_dia := 0.025
    pipe_area := 1
    panel_area := 1
    panel_thickness := 0.06
    C := 500
    emmi := 0 }

theorem panel_temp_nondecreasing_witness :
    witPanel.T ≤ (witPanel.UpdateTemp 1000 0 false 25 0.0000000567 1).1.T :=
  panel_temp_nondecreasing witPanel 1000 0 25 0.0000000567 1 rfl (by norm_num)
    (by norm_num [witPanel]) (by norm_num [witPanel]) (by norm_num [witPanel])
    (by norm_num [witPanel]) (by norm_num [witPanel])

/-- C8: a zero-step run of the driver loop produces three empty time series
and leaves the panel temperature, panel-outlet temperature and tank-outlet
temperature unchanged. -/
theorem zero_step_run (solar_rad : ℝ) (cycle : Bool) (T_amb sigma dt : ℝ)
    (panel : SolarPanel) (water : Fluid) :
    (simRun solar_rad cycle T_amb sigma dt 0 (SimState.start panel water)).pipe_temps = [] ∧
      (simRun solar_rad cycle T_amb sigma dt 0 (SimState.start panel water)).panel_outlet_temps
        = [] ∧
      (simRun solar_rad cycle T_amb sigma dt 0 (SimState.start panel water)).tank_outlet_temps
        = [] ∧
      (simRun solar_rad cycle T_amb sigma dt 0 (SimState.start panel water)).panel.T
        = panel.T ∧
      (simRun solar_rad cycle T_amb sigma dt 0 (SimState.start panel water)).water.T_panel_out
        = water.T_panel_out ∧
      (simRun solar_rad cycle T_amb sigma dt 0 (SimState.start panel water)).water.T_tank_out
        = water.T_tank_out :=
  ⟨rfl, rfl, rfl, rfl, rfl, rfl⟩

theorem simStep_pipe_temps (solar_rad : ℝ) (cycle : Bool) (T_amb sigma dt : ℝ)
    (i : ℕ) (s : SimState) :
    (simStep solar_rad cycle T_amb sigma dt i s).pipe_temps =
      s.pipe_temps ++ [(s.panel.UpdateTemp solar_rad (dt * i) cycle T_amb sigma dt).2] := rfl

theorem simStep_panel_outlet_temps (solar_rad : ℝ) (cycle : Bool) (T_amb sigma dt : ℝ)
    (i : ℕ) (s : SimState) :
    (simStep solar_rad cycle T_amb sigma dt i s).panel_outlet_temps =
      s.panel_outlet_temps ++
        [(s.water.UpdateTemp
            (s.panel.UpdateTemp solar_rad (dt * i) cycle T_amb sigma dt).2 dt).2.1] := rfl

theorem simStep_tank_outlet_temps (solar_rad : ℝ) (cycle : Bool) (T_amb sigma dt : ℝ)
    (i : ℕ) (s : SimState) :
    (simStep solar_rad cycle T_amb sigma dt i s).tank_outlet_temps =
      s.tank_outlet_temps ++
        [(s.water.UpdateTemp
            (s.panel.UpdateTemp solar_rad (dt * i) cycle T_amb sigma dt).2 dt).2.2] := rfl

theorem getElem?_append_len {α : Type} (l : List α) (a : α) (i : ℕ) (h : l.length = i) :
    (l ++ [a])[i]? = some a := by
  subst h
  rw [List.getElem?_append_right (le_refl _)]
  simp

/-- C5: the driver executes exactly `steps` iterations in order; after the run
each of the three time series has length `steps`, and for every `i < steps`
entry `i` was produced by iteration `i`: the panel update applied to the state
after `i` iterations at elapsed time `dt·i`, and the fluid update applied to
that panel result. -/
theorem driver_loop_trace (solar_rad : ℝ) (cycle : Bool) (T_amb sigma dt : ℝ)
    (panel : SolarPanel) (water : Fluid) (steps : ℕ) :
    (simRun solar_rad cycle T_amb sigma dt steps (SimState.start panel water)).pipe_temps.length
        = steps ∧
      (simRun solar_rad cycle T_amb sigma dt steps
          (SimState.start panel water)).panel_outlet_temps.length = steps ∧
      (simRun solar_rad cycle T_amb sigma dt steps
          (SimState.start panel water)).tank_outlet_temps.length = steps ∧
      ∀ i : ℕ, i < steps →
        (simRun solar_rad cycle T_amb sigma dt steps
              (SimState.start panel water)).pipe_temps[i]? =
            some (((simRun solar_rad cycle T_amb sigma dt i
                (SimState.start panel water)).panel.UpdateTemp
              solar_rad (dt * i) cycle T_amb sigma dt).2) ∧
          (simRun solar_rad cycle T_amb sigma dt steps
                (SimState.start panel water)).panel_outlet_temps[i]? =
            some (((simRun solar_rad cycle T_amb sigma dt i
                  (SimState.start panel water)).water.UpdateTemp
                ((simRun solar_rad cycle T_amb sigma dt i
                    (SimState.start panel water)).panel.UpdateTemp
                  solar_rad (dt * i) cycle T_amb sigma dt).2 dt).2.1) ∧
          (simRun solar_rad cycle T_amb sigma dt steps
                (SimState.start panel water)).tank_outlet_temps[i]? =
            some (((simRun solar_rad cycle T_amb sigma dt i
                  (SimState.start panel water)).water.UpdateTemp
                ((simRun solar_rad cycle T_amb sigma dt i
                    (SimState.start panel water)).panel.UpdateTemp
                  solar_rad (dt * i) cycle T_amb sigma dt).2 dt).2.2) := by
  induction steps with
  | zero => exact ⟨rfl, rfl, rfl, fun i hi => absurd hi (Nat.not_lt_zero i)⟩
  | succ n ih =>
    obtain ⟨h1, h2, h3, h4⟩ := ih
    rw [simRun_succ]
    simp only [simStep_pipe_temps, simStep_panel_outlet_temps, simStep_tank_outlet_temps]
    refine ⟨?_, ?_, ?_, ?_⟩
    · simp [h1]
    · simp [h2]
    · simp [h3]
    · intro i hi
      rcases Nat.lt_succ_iff_lt_or_eq.1 hi with hlt | heq
      · obtain ⟨e1, e2, e3⟩ := h4 i hlt
        refine ⟨?_, ?_, ?_⟩
        · rw [List.getElem?_append_left (by rw [h1]; exact hlt)]
          exact e1
        · rw [List.getElem?_append_left (by rw [h2]; exact hlt)]
          exact e2
        · rw [List.getElem?_append_left (by rw [h3]; exact hlt)]
          exact e3
      · subst heq
        exact ⟨getElem?_append_len _ _ _ h1, getElem?_append_len _ _ _ h2,
          getElem?_append_len _ _ _ h3⟩

/-- The panel's trajectory under the driver loop: `n` applications of
`SolarPanel.UpdateTemp`, iteration `i` at elapsed time `dt·i` (the panel part
of main.py lines 184-189). -/
noncomputable def panelRun (solar_rad : ℝ) (cycle : Bool) (T_amb sigma dt : ℝ)
    (p : SolarPanel) : ℕ → SolarPanel
  | 0 => p
  | n + 1 =>
    ((panelRun solar_rad cycle T_amb sigma dt p n).UpdateTemp solar_rad (dt * n) cycle
      T_amb sigma dt).1

theorem panelRun_zero (solar_rad : ℝ) (cycle : Bool) (T_amb sigma dt : ℝ) (p : SolarPanel) :
    panelRun solar_rad cycle T_amb sigma dt p 0 = p := rfl

theorem panelRun_succ (solar_rad : ℝ) (cycle : Bool) (T_amb sigma dt : ℝ) (p : SolarPanel)
    (n : ℕ) :
    panelRun solar_rad cycle T_amb sigma dt p (n + 1) =
      ((panelRun solar_rad cycle T_amb sigma dt p n).UpdateTemp solar_rad (dt * n) cycle
        T_amb sigma dt).1 := rfl

/-- `panelRun` is exactly the panel component of the driver's state. -/
theorem simRun_panel_eq (solar_rad : ℝ) (cycle : Bool) (T_amb sigma dt : ℝ)
    (panel : SolarPanel) (water : Fluid) (n : ℕ) :
    (simRun solar_rad cycle T_amb sigma dt n (SimState.start panel water)).panel =
      panelRun solar_rad cycle T_amb sigma dt panel n := by
  induction n with
  | zero => rfl
  | succ n ih =>
    rw [simRun_succ, panelRun_succ, ← ih]
    rfl

/-- `SolarPanel.UpdateTemp` only mutates `T`, so the fixed parameters survive
any number of iterations. -/
theorem panelRun_params (solar_rad : ℝ) (cycle : Bool) (T_amb sigma dt : ℝ) (p : SolarPanel)
    (n : ℕ) :
    (panelRun solar_rad cycle T_amb sigma dt p n).emmi = p.emmi ∧
      (panelRun solar_rad cycle T_amb sigma dt p n).panel_area = p.panel_area ∧
      (panelRun solar_rad cycle T_amb sigma dt p n).panel_thickness = p.panel_thickness ∧
      (panelRun solar_rad cycle T_amb sigma dt p n).C = p.C := by
  induction n with
  | zero => exact ⟨rfl, rfl, rfl, rfl⟩
  | succ n ih => exact ih

/-- C7: with zero peak flux and the cycle off, a panel starting above ambient
strictly decreases toward ambient at every step and never undershoots ambient
at any finite step count, under a small-`dt` stability condition on the
initial state. -/
theorem panel_decay_to_ambient (p : SolarPanel) (T_amb sigma dt : ℝ)
    (hemmi : 0 < p.emmi) (harea : 0 < p.panel_area) (hth : 0 < p.panel_thickness)
    (hC : 0 < p.C) (hsigma : 0 < sigma) (hdt : 0 < dt) (hamb : -273 ≤ T_amb)
    (hT : T_amb < p.T)
    (hstab : dt * (1.2 * sigma * p.emmi / (p.C * p.panel_thickness * 7800)) *
        ((p.T + 273) ^ 3 + (p.T + 273) ^ 2 * (T_amb + 273) + (p.T + 273) * (T_amb + 273) ^ 2 +
          (T_amb + 273) ^ 3) < 1) :
    ∀ n : ℕ,
      T_amb < (panelRun 0 false T_amb sigma dt p (n + 1)).T ∧
        (panelRun 0 false T_amb sigma dt p (n + 1)).T <
          (panelRun 0 false T_amb sigma dt p n).T := by
  set c := 1.2 * sigma * p.panel_area * p.emmi * dt /
    (p.C * (p.panel_thickness * p.panel_area * 7800)) with hc_def
  have hden : 0 < p.C * (p.panel_thickness * p.panel_area * 7800) := by
    have h78 : (0:ℝ) < 7800 := by norm_num
    exact mul_pos hC (mul_pos (mul_pos hth harea) h78)
  have hc_pos : 0 < c := by
    rw [hc_def]
    apply div_pos _ hden
    have h12 : (0:ℝ) < 1.2 := by norm_num
    exact mul_pos (mul_pos (mul_pos (mul_pos h12 hsigma) harea) hemmi) hdt
  have hstab' : c * ((p.T + 273) ^ 3 + (p.T + 273) ^ 2 * (T_amb + 273) +
      (p.T + 273) * (T_amb + 273) ^ 2 + (T_amb + 273) ^ 3) < 1 := by
    have hc_eq : c = dt * (1.2 * sigma * p.emmi / (p.C * p.panel_thickness * 7800)) := by
      rw [hc_def]
      field_simp
      ring
    rw [hc_eq]
    exact hstab
  have hTsucc : ∀ n : ℕ, (panelRun 0 false T_amb sigma dt p (n + 1)).T =
      (panelRun 0 false T_amb sigma dt p n).T -
        c * (((panelRun 0 false T_amb sigma dt p n).T + 273) ^ 4 - (T_amb + 273) ^ 4) := by
    intro n
    obtain ⟨hm, ha, hh, hcc⟩ := panelRun_params 0 false T_amb sigma dt p n
    rw [panelRun_succ, UpdateTemp_T_eq, hm, ha, hh, hcc]
    have hg : get_solar_rad 0 (dt * n) false = 0 := rfl
    rw [hg, hc_def]
    ring
  have hstep : ∀ t : ℝ, T_amb < t → t ≤ p.T →
      T_amb < t - c * ((t + 273) ^ 4 - (T_amb + 273) ^ 4) ∧
        t - c * ((t + 273) ^ 4 - (T_amb + 273) ^ 4) < t := by
    intro t h1 h2
    have hy : (0:ℝ) ≤ T_amb + 273 := by linarith
    have hx : (0:ℝ) < t + 273 := by linarith
    have hx0 : t + 273 ≤ p.T + 273 := by linarith
    have hS_pos : 0 < (t + 273) ^ 3 + (t + 273) ^ 2 * (T_amb + 273) +
        (t + 273) * (T_amb + 273) ^ 2 + (T_amb + 273) ^ 3 := by
      have t1 : 0 < (t + 273) ^ 3 := pow_pos hx 3
      have t2 : 0 ≤ (t + 273) ^ 2 * (T_amb + 273) := mul_nonneg (sq_nonneg _) hy
      have t3 : 0 ≤ (t + 273) * (T_amb + 273) ^ 2 := mul_nonneg hx.le (sq_nonneg _)
      have t4 : 0 ≤ (T_amb + 273) ^ 3 := pow_nonneg hy 3
      linarith
    have hS_le : (t + 273) ^ 3 + (t + 273) ^ 2 * (T_amb + 273) +
        (t + 273) * (T_amb + 273) ^ 2 + (T_amb + 273) ^ 3 ≤
        (p.T + 273) ^ 3 + (p.T + 273) ^ 2 * (T_amb + 273) +
        (p.T + 273) * (T_amb + 273) ^ 2 + (T_amb + 273) ^ 3 := by
      have u1 : (t + 273) ^ 3 ≤ (p.T + 273) ^ 3 := pow_le_pow_left₀ hx.le hx0 3
      have u2 : (t + 273) ^ 2 * (T_amb + 273) ≤ (p.T + 273) ^ 2 * (T_amb + 273) :=
        mul_le_mul_of_nonneg_right (pow_le_pow_left₀ hx.le hx0 2) hy
      have u3 : (t + 273) * (T_amb + 273) ^ 2 ≤ (p.T + 273) * (T_amb + 273) ^ 2 :=
        mul_le_mul_of_nonneg_right hx0 (sq_nonneg _)
      linarith
    have hcS : c * ((t + 273) ^ 3 + (t + 273) ^ 2 * (T_amb + 273) +
        (t + 273) * (T_amb + 273) ^ 2 + (T_amb + 273) ^ 3) < 1 :=
      lt_of_le_of_lt (mul_le_mul_of_nonneg_left hS_le hc_pos.le) hstab'
    have hfac : (t + 273) ^ 4 - (T_amb + 273) ^ 4 =
        (t - T_amb) * ((t + 273) ^ 3 + (t + 273) ^ 2 * (T_amb + 273) +
          (t + 273) * (T_amb + 273) ^ 2 + (T_amb + 273) ^ 3) := by
      ring
    constructor
    · rw [hfac]
      nlinarith [mul_pos (show (0:ℝ) < t - T_amb by linarith)
        (show 0 < 1 - c * ((t + 273) ^ 3 + (t + 273) ^ 2 * (T_amb + 273) +
          (t + 273) * (T_amb + 273) ^ 2 + (T_amb + 273) ^ 3) by linarith)]
    · rw [hfac]
      nlinarith [mul_pos (mul_pos hc_pos (show (0:ℝ) < t - T_amb by linarith)) hS_pos]
  have inv : ∀ n : ℕ, T_amb < (panelRun 0 false T_amb sigma dt p n).T ∧
      (panelRun 0 false T_amb sigma dt p n).T ≤ p.T := by
    intro n
    induction n with
    | zero => exact ⟨hT, le_refl _⟩
    | succ n ih =>
      have hs := hstep _ ih.1 ih.2
      rw [hTsucc n]
      exact ⟨hs.1, le_of_lt (lt_of_lt_of_le hs.2 ih.2)⟩
  intro n
  have hs := hstep _ (inv n).1 (inv n).2
  rw [hTsucc n]
  exact hs

/-- A panel state above ambient with the reference parameters, used to
instantiate the decay theorem concretely. -/
noncomputable def decayPanel : SolarPanel :=
  { T := 26
    effi := 0.5
    pipe_len := 5
    pipe_dia := 0.025
    pipe_area := 1
    panel_area := 1
    panel_thickness := 0.06
    C := 500
    emmi := 0.4 }

theorem panel_decay_to_ambient_witness :
    (25 : ℝ) < (panelRun 0 false 25 0.0000001 1 decayPanel 1).T ∧
      (panelRun 0 false 25 0.0000001 1 decayPanel 1).T <
        (panelRun 0 false 25 0.0000001 1 decayPanel 0).T :=
  panel_decay_to_ambient decayPanel 25 0.0000001 1 (by norm_num [decayPanel])
    (by norm_num [decayPanel]) (by norm_num [decayPanel]) (by norm_num [decayPanel])
    (by norm_num) (by norm_num) (by norm_num) (by norm_num [decayPanel])
    (by norm_num [decayPanel]) 0

end SolarSim
